import Mathlib

/-!
Verification of `fil_logger` (filecoin-project/rust-fil-logger).

The development shallowly embeds the five source files of the crate:
`src/lib.rs` (the three format functions, the format selector `log_format`,
and the initializers) and `src/single_file_writer.rs` (the mutex-guarded
file-writer adapter).  External collaborators — the `log` crate's record and
level types, `flexi_logger`'s timestamp and `style` helpers, the global
logger registry, and a fallible output sink — are given explicit, executable
models.  Machine integers do not overflow in any code path modelled here
(line numbers and sizes are only formatted), so `Nat`/`Int` are used
directly.
-/

namespace FilLogger

/-- Severities of the `log` crate, `log::Level`. -/
inductive Level where
  | Error
  | Warn
  | Info
  | Debug
  | Trace
deriving DecidableEq, Repr

/-- The `Display` rendering of `log::Level` (the `log` crate prints the
uppercase severity name). -/
def Level.display : Level → String
  | .Error => "ERROR"
  | .Warn => "WARN"
  | .Info => "INFO"
  | .Debug => "DEBUG"
  | .Trace => "TRACE"

/-- The lowercase severity name, as computed by the `match` at the top of
`go_log_json_format`. -/
def Level.lower : Level → String
  | .Error => "error"
  | .Warn => "warn"
  | .Info => "info"
  | .Debug => "debug"
  | .Trace => "trace"

/-- A log record, `log::Record`: the fields `fil_logger` reads.  `module_path`,
`file` and `line` are optional in the `log` crate; `args` is the
already-formatted message text. -/
structure Record where
  level : Level
  module_path : Option String
  file : Option String
  line : Option Nat
  args : String
deriving DecidableEq, Repr

/-- A timestamp as captured by `flexi_logger::DeferredNow` (a `chrono` local
datetime).  `offsetMinutes` is the local UTC offset east of Greenwich in
minutes, as carried by `chrono`'s `%:z` specifier. -/
structure Timestamp where
  year : Nat
  month : Nat
  day : Nat
  hour : Nat
  minute : Nat
  second : Nat
  millisecond : Nat
  offsetMinutes : Int
deriving DecidableEq, Repr

/-- Zero-pad a number to two digits, as `chrono`'s `%m`, `%d`, `%H`, `%M`,
`%S` do. -/
def pad2 (n : Nat) : String :=
  if n < 10 then "0" ++ toString n else toString n

/-- Zero-pad a number to three digits, as `chrono`'s `%.3f` fraction does. -/
def pad3 (n : Nat) : String :=
  if n < 10 then "00" ++ toString n
  else if n < 100 then "0" ++ toString n
  else toString n

/-- Zero-pad a number to four digits, as `chrono`'s `%Y` does for common
years. -/
def pad4 (n : Nat) : String :=
  if n < 10 then "000" ++ toString n
  else if n < 100 then "00" ++ toString n
  else if n < 1000 then "0" ++ toString n
  else toString n

/-- The `chrono` rendering of the format string `"%Y-%m-%dT%H:%M:%S%.3f"`:
date and time with millisecond precision and no timezone offset (used by
the two text formatters). -/
def Timestamp.formatNoTz (t : Timestamp) : String :=
  pad4 t.year ++ "-" ++ pad2 t.month ++ "-" ++ pad2 t.day ++ "T" ++
    pad2 t.hour ++ ":" ++ pad2 t.minute ++ ":" ++ pad2 t.second ++ "." ++
    pad3 t.millisecond

/-- The `chrono` rendering of the `"%:z"` specifier: the numeric UTC offset as
`+HH:MM` or `-HH:MM`. -/
def Timestamp.formatTz (t : Timestamp) : String :=
  (if t.offsetMinutes < 0 then "-" else "+") ++
    pad2 (t.offsetMinutes.natAbs / 60) ++ ":" ++ pad2 (t.offsetMinutes.natAbs % 60)

/-- The `chrono` rendering of the format string `"%Y-%m-%dT%H:%M:%S%.3f%:z"`:
date and time with millisecond precision followed by the `+HH:MM`-style
numeric UTC offset (used by the JSON formatter). -/
def Timestamp.formatWithTz (t : Timestamp) : String :=
  t.formatNoTz ++ t.formatTz

/-- An I/O error value (`std::io::Error`); the code carried only
distinguishes errors from each other. -/
structure IOErr where
  code : Nat
deriving DecidableEq, Repr

/-- A fallible byte sink modelling `&mut dyn std::io::Write` over a file or
stream.  `contents` is everything successfully written so far;
`failSchedule` is a fault-injection schedule: each write consumes its head,
and a `some e` head makes that write fail with error `e` (writing
nothing). An empty schedule means writes keep succeeding. -/
structure MFile where
  contents : String
  failSchedule : List (Option IOErr)
deriving DecidableEq, Repr

/-- One `write!`/`writeln!` call against the sink: fails exactly when the
fault schedule says so, otherwise appends the bytes. -/
def MFile.write (w : MFile) (s : String) : MFile × Option IOErr :=
  match w.failSchedule with
  | some e :: rest => ({ w with failSchedule := rest }, some e)
  | none :: rest => ({ contents := w.contents ++ s, failSchedule := rest }, none)
  | [] => ({ w with contents := w.contents ++ s }, none)

/-- The type of `flexi_logger::FormatFunction`:
`fn(&mut dyn Write, &mut DeferredNow, &Record) -> Result<(), io::Error>`,
in state-passing form. -/
def FormatFunction : Type :=
  MFile → Timestamp → Record → MFile × Option IOErr

/-- The bytes `fil_logger::go_log_json_format` (src/lib.rs) interpolates:
the rendering of its format string
`r#"{"level":"{}","ts":"{}","logger":"{}","caller":"{}:{}","msg":"{}"}"#`
with the lowercased level match, the `%Y-%m-%dT%H:%M:%S%.3f%:z` timestamp,
and `<unnamed>` / `0` placeholders for the missing optional fields. -/
def go_json_line (now : Timestamp) (record : Record) : String :=
  let level : String :=
    match record.level with
    | .Error => "error"
    | .Warn => "warn"
    | .Info => "info"
    | .Debug => "debug"
    | .Trace => "trace"
  "\x7b\"level\":\"" ++ level ++
    "\",\"ts\":\"" ++ now.formatWithTz ++
    "\",\"logger\":\"" ++ record.module_path.getD "<unnamed>" ++
    "\",\"caller\":\"" ++ record.file.getD "<unnamed>" ++ ":" ++
    toString (record.line.getD 0) ++
    "\",\"msg\":\"" ++ record.args ++ "\"\x7d"

/-- Function `fil_logger::go_log_json_format` (src/lib.rs): one `write!` of the
line rendered by `go_json_line`. -/
def go_log_json_format : FormatFunction := fun writer now record =>
  writer.write (go_json_line now record)

/-- Modelled from the external dependency `flexi_logger::style` (the crate's
default palette): wraps the displayed token in ANSI escape sequences chosen
by severity; `Info` is rendered without styling by the default palette. -/
def style (l : Level) (item : String) : String :=
  match l with
  | .Error => "\x1b[1;38;5;196m" ++ item ++ "\x1b[0m"
  | .Warn => "\x1b[1;38;5;208m" ++ item ++ "\x1b[0m"
  | .Info => item
  | .Debug => "\x1b[38;5;7m" ++ item ++ "\x1b[0m"
  | .Trace => "\x1b[38;5;8m" ++ item ++ "\x1b[0m"

/-- The bytes `fil_logger::color_logger_format` (src/lib.rs) interpolates:
`"{} {} {} > {}"` with the offset-free timestamp, the ANSI-styled level,
the module path (or the `<unnamed>` placeholder) and the message. -/
def color_line (now : Timestamp) (record : Record) : String :=
  let level := record.level
  now.formatNoTz ++ " " ++ style level level.display ++ " " ++
    record.module_path.getD "<unnamed>" ++ " > " ++ record.args

/-- Function `fil_logger::color_logger_format` (src/lib.rs): one `write!` of the
line rendered by `color_line`. -/
def color_logger_format : FormatFunction := fun writer now record =>
  writer.write (color_line now record)

/-- The bytes `fil_logger::nocolor_logger_format` (src/lib.rs)
interpolates: `"{} {} {} > {}"` with the offset-free timestamp, the plain
displayed level, the module path (or the `<unnamed>` placeholder) and the
message. -/
def nocolor_line (now : Timestamp) (record : Record) : String :=
  now.formatNoTz ++ " " ++ record.level.display ++ " " ++
    record.module_path.getD "<unnamed>" ++ " > " ++ record.args

/-- Function `fil_logger::nocolor_logger_format` (src/lib.rs): one `write!` of
the line rendered by `nocolor_line`. -/
def nocolor_logger_format : FormatFunction := fun writer now record =>
  writer.write (nocolor_line now record)

/-- Function `fil_logger::log_format` (src/lib.rs): selects the format function from
the `GOLOG_LOG_FMT` environment variable (`none` models both an unset and a
non-unicode variable, i.e. `env::var`'s `Err` cases) and from whether
stderr is attached to a terminal (`atty::is(atty::Stream::Stderr)`). -/
def log_format (envGologLogFmt : Option String) (stderrIsAtty : Bool) :
    FormatFunction :=
  match envGologLogFmt with
  | some format =>
    if format = "json" then go_log_json_format
    else if stderrIsAtty then color_logger_format else nocolor_logger_format
  | none =>
    if stderrIsAtty then color_logger_format else nocolor_logger_format

/-- Structure `fil_logger::SingleFileWriter` (src/single_file_writer.rs): an open file
behind a mutex (`state`), plus the configured format function.  The mutex
only serializes concurrent callers; each call of `write`/`flush` holds it
for the whole call, so a single call is modelled as plain state passing. -/
structure SingleFileWriter where
  state : MFile
  format : FormatFunction

/-- Method `<SingleFileWriter as LogWriter>::write` (src/single_file_writer.rs):
locks the file, runs the configured format function, propagates its error
with `?`, and otherwise appends a newline with `writeln!`. -/
def SingleFileWriter.write (self : SingleFileWriter) (now : Timestamp)
    (record : Record) : SingleFileWriter × Option IOErr :=
  match self.format self.state now record with
  | (file1, some e) => ({ self with state := file1 }, some e)
  | (file1, none) =>
    match file1.write "\n" with
    | (file2, res) => ({ self with state := file2 }, res)

/-- Method `<SingleFileWriter as LogWriter>::format` (src/single_file_writer.rs):
replaces the configured format function. -/
def SingleFileWriter.setFormat (self : SingleFileWriter)
    (format : FormatFunction) : SingleFileWriter :=
  { self with format := format }

/-- The process-wide logger registry of the `log` crate, as used through
`flexi_logger::Logger::start()`: a single global slot that can be filled at
most once (`log::set_boxed_logger` fails if it is already filled).
`installed` records the format function wired into the installed backend
(`none` = uninitialized). -/
structure LoggerState where
  installed : Option FormatFunction

/-- Result of running an initializer: either the process continues with the
new registry state, or it panicked with a message (`.expect` on a failed
`start()`). -/
inductive InitOutcome where
  | ok (st : LoggerState)
  | panicked (msg : String)

/-- Running `flexi_logger::Logger::start()` against the global registry: installs
the backend carrying the chosen format if the slot is free, and reports an
error otherwise (the `log` crate's `SetLoggerError`). -/
def logger_start (format : FormatFunction) (st : LoggerState) :
    Except Unit LoggerState :=
  match st.installed with
  | some _ => .error ()
  | none => .ok { installed := some format }

/-- Function `fil_logger::init` (src/lib.rs):
`Logger::with_env().format(log_format()).start().expect("Initializing logger failed. Was another logger already initialized?")` —
installs the selected format into the global registry, panicking with the
fixed message if a logger was already set. -/
def init (envGologLogFmt : Option String) (stderrIsAtty : Bool)
    (st : LoggerState) : InitOutcome :=
  match logger_start (log_format envGologLogFmt stderrIsAtty) st with
  | .ok st1 => .ok st1
  | .error _ =>
    .panicked "Initializing logger failed. Was another logger already initialized?"

/-- Modelled from the spec: `fil_logger::maybe_init`, the best-effort
initializer referenced by `tests/maybe_init.rs` but absent from the `src/`
files given.  Per the spec (§4.3, §7): same as strict initialize, except
that if a backend is already installed the attempt is silently discarded
instead of terminating the process. -/
def maybe_init (envGologLogFmt : Option String) (stderrIsAtty : Bool)
    (st : LoggerState) : InitOutcome :=
  match logger_start (log_format envGologLogFmt stderrIsAtty) st with
  | .ok st1 => .ok st1
  | .error _ => .ok st

/-- The bytes a format function emits for a record: its output on a fresh,
never-failing sink. -/
def rendered (format : FormatFunction) (now : Timestamp) (record : Record) :
    String :=
  (format { contents := "", failSchedule := [] } now record).1.contents

/-- ASCII lowercasing, character by character. -/
def asciiLower (s : String) : String :=
  ⟨s.data.map Char.toLower⟩

/-- One `"key":"value"` member of a JSON object whose values are strings. -/
def kv (k v : String) : String :=
  "\"" ++ k ++ "\":\"" ++ v ++ "\""

/-- Comma-separated members of a JSON object with string values. -/
def jsonObjBody : List (String × String) → String
  | [] => ""
  | [p] => kv p.1 p.2
  | p :: ps => kv p.1 p.2 ++ "," ++ jsonObjBody ps

/-- A JSON object with string values: exactly the given keys, in the given
order. -/
def jsonObj (ps : List (String × String)) : String :=
  "\x7b" ++ jsonObjBody ps ++ "\x7d"

/-! A JSON syntax checker (RFC 8259), used to state that an output line is
or is not syntactically valid JSON.  The checker is lenient where the RFC
is strict (it allows leading zeros in numbers and any characters above
U+001F unescaped), so everything the RFC accepts, it accepts: a rejection
therefore soundly witnesses syntactic invalidity. -/

/-- JSON insignificant whitespace. -/
def isJsonWs (c : Char) : Bool :=
  c = ' ' || c = '\t' || c = '\n' || c = '\r'

/-- Drop leading JSON whitespace. -/
def skipWs : List Char → List Char
  | [] => []
  | c :: cs => if isJsonWs c then skipWs cs else c :: cs

/-- Hexadecimal digit, for `\uXXXX` escapes. -/
def isHexDigit (c : Char) : Bool :=
  c.isDigit || (97 ≤ c.toNat && c.toNat ≤ 102) || (65 ≤ c.toNat && c.toNat ≤ 70)

/-- Consume the rest of a JSON string, the opening quote already consumed;
returns the input after the closing quote. -/
def jsonStringRest : Nat → List Char → Option (List Char)
  | 0, _ => none
  | _ + 1, [] => none
  | fuel + 1, c :: cs =>
    if c = '"' then some cs
    else if c = '\\' then
      match cs with
      | [] => none
      | e :: cs2 =>
        if e = '"' ∨ e = '\\' ∨ e = '/' ∨ e = 'b' ∨ e = 'f' ∨ e = 'n' ∨
            e = 'r' ∨ e = 't' then
          jsonStringRest fuel cs2
        else if e = 'u' then
          match cs2 with
          | h1 :: h2 :: h3 :: h4 :: cs3 =>
            if isHexDigit h1 && isHexDigit h2 && isHexDigit h3 && isHexDigit h4
            then jsonStringRest fuel cs3
            else none
          | _ => none
        else none
    else if c.toNat < 32 then none
    else jsonStringRest fuel cs

/-- Returns `true` when the list starts with a decimal digit. -/
def hasLeadingDigit : List Char → Bool
  | c :: _ => c.isDigit
  | [] => false

/-- Drop a leading run of decimal digits. -/
def dropDigits : List Char → List Char
  | [] => []
  | c :: cs => if c.isDigit then dropDigits cs else c :: cs

/-- Consume the exponent part of a JSON number, after `e`/`E`. -/
def jsonExpRest (cs : List Char) : Option (List Char) :=
  let cs1 := match cs with
    | '+' :: r => r
    | '-' :: r => r
    | _ => cs
  if hasLeadingDigit cs1 then some (dropDigits cs1) else none

/-- Consume the rest of a JSON number, an optional leading `-` already
consumed (leniently: leading zeros are allowed). -/
def jsonNumberRest (cs : List Char) : Option (List Char) :=
  if hasLeadingDigit cs then
    let cs1 := dropDigits cs
    let frac : Option (List Char) :=
      match cs1 with
      | '.' :: r => if hasLeadingDigit r then some (dropDigits r) else none
      | _ => some cs1
    match frac with
    | none => none
    | some cs2 =>
      match cs2 with
      | 'e' :: r => jsonExpRest r
      | 'E' :: r => jsonExpRest r
      | _ => some cs2
  else none

mutual

/-- Consume one JSON value; returns the remaining input. -/
def jsonValueRest : Nat → List Char → Option (List Char)
  | 0, _ => none
  | fuel + 1, cs =>
    match skipWs cs with
    | [] => none
    | c :: cs1 =>
      if c = '"' then jsonStringRest (fuel + 1) cs1
      else if c = '\x7b' then jsonMembersStart fuel cs1
      else if c = '[' then jsonElementsStart fuel cs1
      else if c = 't' then
        match cs1 with
        | 'r' :: 'u' :: 'e' :: rest => some rest
        | _ => none
      else if c = 'f' then
        match cs1 with
        | 'a' :: 'l' :: 's' :: 'e' :: rest => some rest
        | _ => none
      else if c = 'n' then
        match cs1 with
        | 'u' :: 'l' :: 'l' :: rest => some rest
        | _ => none
      else if c = '-' then jsonNumberRest cs1
      else if c.isDigit then jsonNumberRest (c :: cs1)
      else none

/-- Consume the members of a JSON object, the opening brace already
consumed. -/
def jsonMembersStart : Nat → List Char → Option (List Char)
  | 0, _ => none
  | fuel + 1, cs =>
    match skipWs cs with
    | '\x7d' :: rest => some rest
    | cs1 => jsonMember fuel cs1

/-- Consume one `"key": value` member and the continuation of the object. -/
def jsonMember : Nat → List Char → Option (List Char)
  | 0, _ => none
  | fuel + 1, cs =>
    match skipWs cs with
    | '"' :: cs1 =>
      match jsonStringRest (fuel + 1) cs1 with
      | some cs2 =>
        match skipWs cs2 with
        | ':' :: cs3 =>
          match jsonValueRest fuel cs3 with
          | some cs4 =>
            match skipWs cs4 with
            | ',' :: cs5 => jsonMember fuel cs5
            | '\x7d' :: cs5 => some cs5
            | _ => none
          | none => none
        | _ => none
      | none => none
    | _ => none

/-- Consume the elements of a JSON array, the opening bracket already
consumed. -/
def jsonElementsStart : Nat → List Char → Option (List Char)
  | 0, _ => none
  | fuel + 1, cs =>
    match skipWs cs with
    | ']' :: rest => some rest
    | cs1 =>
      match jsonValueRest fuel cs1 with
      | some cs2 => jsonElementsNext fuel cs2
      | none => none

/-- Consume `, value` continuations of a JSON array, up to the closing
bracket. -/
def jsonElementsNext : Nat → List Char → Option (List Char)
  | 0, _ => none
  | fuel + 1, cs =>
    match skipWs cs with
    | ',' :: cs1 =>
      match jsonValueRest fuel cs1 with
      | some cs2 => jsonElementsNext fuel cs2
      | none => none
    | ']' :: cs1 => some cs1
    | _ => none

end

/-- Is the whole string a syntactically valid JSON text?  The fuel bound
suffices: every recursive call consumes at least one character or descends
into a strictly smaller suffix. -/
def isValidJson (s : String) : Bool :=
  match jsonValueRest (2 * s.length + 8) s.toList with
  | some rest => (skipWs rest).isEmpty
  | none => false

/-! Helper lemmas shared by the claim theorems. -/

theorem chunk_merge (a b ab : String) (h : a ++ b = ab) (x : String) :
    a ++ (b ++ x) = ab ++ x := by
  rw [← h, ← String.append_assoc]

theorem MFile.write_nofail (w : MFile) (s : String) (hw : w.failSchedule = []) :
    w.write s = ({ contents := w.contents ++ s, failSchedule := [] }, none) := by
  obtain ⟨c, sched⟩ := w
  subst hw
  rfl

theorem MFile.write_ok_contents (w : MFile) (s : String)
    (h : (w.write s).2 = none) :
    ((w.write s).1).contents = w.contents ++ s := by
  obtain ⟨c, sched⟩ := w
  match sched with
  | [] => rfl
  | none :: rest => rfl
  | some e :: rest => simp [MFile.write] at h

theorem data_getLast_append (x y : String) (c : Char)
    (h : y.data.getLast? = some c) : (x ++ y).data.getLast? = some c := by
  have hne : y.data ≠ [] := by
    intro hnil
    rw [hnil] at h
    simp [List.getLast?] at h
  have hd : (x ++ y).data = x.data ++ y.data := rfl
  rw [hd, List.getLast?_append_of_ne_nil _ hne]
  exact h

theorem jsonObj_five (lvl ts lg cal m : String) :
    jsonObj [("level", lvl), ("ts", ts), ("logger", lg), ("caller", cal), ("msg", m)] =
      "\x7b\"level\":\"" ++ lvl ++ "\",\"ts\":\"" ++ ts ++ "\",\"logger\":\"" ++ lg ++
        "\",\"caller\":\"" ++ cal ++ "\",\"msg\":\"" ++ m ++ "\"\x7d" := by
  simp only [jsonObj, jsonObjBody, kv]
  simp [String.append_assoc]
  simp only [chunk_merge "\x7b" "\"level\":\"" "\x7b\"level\":\"" rfl,
    chunk_merge "\"," "\"ts\":\"" "\",\"ts\":\"" rfl,
    chunk_merge "\"," "\"logger\":\"" "\",\"logger\":\"" rfl,
    chunk_merge "\"," "\"caller\":\"" "\",\"caller\":\"" rfl,
    chunk_merge "\"," "\"msg\":\"" "\",\"msg\":\"" rfl]

theorem asciiLower_display (l : Level) : asciiLower l.display = l.lower := by
  cases l <;> rfl

theorem go_json_line_eq (now : Timestamp) (r : Record) :
    go_json_line now r =
      "\x7b\"level\":\"" ++ r.level.lower ++ "\",\"ts\":\"" ++
        now.formatWithTz ++ "\",\"logger\":\"" ++
        r.module_path.getD "<unnamed>" ++ "\",\"caller\":\"" ++
        r.file.getD "<unnamed>" ++ ":" ++ toString (r.line.getD 0) ++
        "\",\"msg\":\"" ++ r.args ++ "\"\x7d" := by
  obtain ⟨lvl, mp, fl, ln, args⟩ := r
  cases lvl <;> rfl

/-- Claim C1: for every record at every severity, the JSON format function
emits a single-line JSON object with exactly the five keys `level`, `ts`,
`logger`, `caller`, `msg` in that fixed order; the `level` value is the
lowercase severity name (one of trace/debug/info/warn/error), and the
emitted text ends with the closing brace — no trailing newline. -/
theorem claim_C1 (w : MFile) (now : Timestamp) (r : Record)
    (hw : w.failSchedule = []) :
    go_log_json_format w now r =
      ({ contents := w.contents ++ jsonObj
          [("level", asciiLower r.level.display),
           ("ts", now.formatWithTz),
           ("logger", r.module_path.getD "<unnamed>"),
           ("caller", r.file.getD "<unnamed>" ++ ":" ++ toString (r.line.getD 0)),
           ("msg", r.args)],
         failSchedule := [] }, none) ∧
    asciiLower r.level.display ∈ ["trace", "debug", "info", "warn", "error"] ∧
    ((go_log_json_format w now r).1).contents.data.getLast? = some '\x7d' := by
  obtain ⟨c, sched⟩ := w
  subst hw
  obtain ⟨lvl, mp, fl, ln, args⟩ := r
  have h1 : go_log_json_format { contents := c, failSchedule := [] } now
      { level := lvl, module_path := mp, file := fl, line := ln,
        args := args } =
      ({ contents := c ++ go_json_line now
          { level := lvl, module_path := mp, file := fl, line := ln,
            args := args },
         failSchedule := [] }, none) := rfl
  refine ⟨?_, ?_, ?_⟩
  · rw [h1, jsonObj_five, go_json_line_eq, asciiLower_display]
    simp [String.append_assoc]
  · cases lvl <;> (dsimp only; decide)
  · rw [h1]
    dsimp only
    apply data_getLast_append
    rw [go_json_line_eq]
    apply data_getLast_append
    rfl

/-- Claim C1 witness: a concrete trace record with all optional fields
present is rendered as the five-key object with lowercase level. -/
theorem claim_C1_witness :
    (MFile.failSchedule { contents := "", failSchedule := [] } = []) ∧
    (go_log_json_format { contents := "", failSchedule := [] }
        { year := 2019, month := 11, day := 11, hour := 21, minute := 6,
          second := 45, millisecond := 401, offsetMinutes := 60 }
        { level := .Trace, module_path := some "simple",
          file := some "examples/simple.rs", line := some 37,
          args := "some tracing" } =
      ({ contents := "" ++ jsonObj
          [("level", asciiLower Level.Trace.display),
           ("ts", Timestamp.formatWithTz
             { year := 2019, month := 11, day := 11, hour := 21, minute := 6,
               second := 45, millisecond := 401, offsetMinutes := 60 }),
           ("logger", (some "simple").getD "<unnamed>"),
           ("caller", (some "examples/simple.rs").getD "<unnamed>" ++ ":" ++
             toString ((some 37 : Option Nat).getD 0)),
           ("msg", "some tracing")],
         failSchedule := [] }, none)) ∧
    asciiLower Level.Trace.display ∈ ["trace", "debug", "info", "warn", "error"] :=
  ⟨rfl,
    (claim_C1 { contents := "", failSchedule := [] }
      { year := 2019, month := 11, day := 11, hour := 21, minute := 6,
        second := 45, millisecond := 401, offsetMinutes := 60 }
      { level := .Trace, module_path := some "simple",
        file := some "examples/simple.rs", line := some 37,
        args := "some tracing" } rfl).1,
    (claim_C1 { contents := "", failSchedule := [] }
      { year := 2019, month := 11, day := 11, hour := 21, minute := 6,
        second := 45, millisecond := 401, offsetMinutes := 60 }
      { level := .Trace, module_path := some "simple",
        file := some "examples/simple.rs", line := some 37,
        args := "some tracing" } rfl).2.1⟩

/-- Claim C3: for a record with no module path, no file and no line, the
JSON formatter reports no error and the emitted line contains the
placeholder pair `"logger":"<unnamed>","caller":"<unnamed>:0"`. -/
theorem claim_C3 (w : MFile) (now : Timestamp) (r : Record)
    (hm : r.module_path = none) (hf : r.file = none) (hl : r.line = none)
    (hw : w.failSchedule = []) :
    (go_log_json_format w now r).2 = none ∧
    ∃ s1 s2, ((go_log_json_format w now r).1).contents =
      s1 ++ ("\"logger\":\"<unnamed>\",\"caller\":\"<unnamed>:0\"" ++ s2) := by
  obtain ⟨c, sched⟩ := w
  subst hw
  obtain ⟨lvl, mp, fl, ln, args⟩ := r
  cases hm
  cases hf
  cases hl
  have h1 : go_log_json_format { contents := c, failSchedule := [] } now
      { level := lvl, module_path := none, file := none, line := none,
        args := args } =
      ({ contents := c ++ go_json_line now
          { level := lvl, module_path := none, file := none, line := none,
            args := args },
         failSchedule := [] }, none) := rfl
  refine ⟨by rw [h1], ?_⟩
  refine ⟨c ++ ("\x7b\"level\":\"" ++
      (lvl.lower ++ ("\",\"ts\":\"" ++ (now.formatWithTz ++ "\",")))),
    ",\"msg\":\"" ++ (args ++ "\"\x7d"), ?_⟩
  rw [h1]
  dsimp only
  rw [go_json_line_eq]
  dsimp only
  rw [show (none : Option String).getD "<unnamed>" = "<unnamed>" from rfl,
    show toString ((none : Option Nat).getD 0) = "0" from rfl]
  simp [String.append_assoc]
  simp only [chunk_merge "\","
    "\"logger\":\"<unnamed>\",\"caller\":\"<unnamed>:0\""
    "\",\"logger\":\"<unnamed>\",\"caller\":\"<unnamed>:0\"" rfl,
    chunk_merge "\",\"logger\":\"<unnamed>\",\"caller\":\"<unnamed>:0\""
    ",\"msg\":\""
    "\",\"logger\":\"<unnamed>\",\"caller\":\"<unnamed>:0\",\"msg\":\"" rfl]

/-- Claim C3 witness: an info record with no module path, file or line is
rendered without error and with both placeholders. -/
theorem claim_C3_witness :
    ((Record.mk .Info none none none "hello").module_path = none ∧
      (Record.mk .Info none none none "hello").file = none ∧
      (Record.mk .Info none none none "hello").line = none) ∧
    ((go_log_json_format { contents := "", failSchedule := [] }
        { year := 2019, month := 11, day := 11, hour := 21, minute := 6,
          second := 45, millisecond := 401, offsetMinutes := 60 }
        (Record.mk .Info none none none "hello")).2 = none ∧
      ∃ s1 s2, ((go_log_json_format { contents := "", failSchedule := [] }
        { year := 2019, month := 11, day := 11, hour := 21, minute := 6,
          second := 45, millisecond := 401, offsetMinutes := 60 }
        (Record.mk .Info none none none "hello")).1).contents =
        s1 ++ ("\"logger\":\"<unnamed>\",\"caller\":\"<unnamed>:0\"" ++ s2)) :=
  ⟨⟨rfl, rfl, rfl⟩,
    claim_C3 { contents := "", failSchedule := [] }
      { year := 2019, month := 11, day := 11, hour := 21, minute := 6,
        second := 45, millisecond := 401, offsetMinutes := 60 }
      (Record.mk .Info none none none "hello") rfl rfl rfl rfl⟩

/-- Claim C7: the plain text formatter's output is identical to the color
formatter's except that the level token is the plain displayed name
instead of the ANSI-styled one; both lines are
`<timestamp> <level-token> <module-path-or-placeholder> > <message>` with
the offset-free millisecond timestamp (the JSON timestamp is this text
timestamp followed by the numeric offset). -/
theorem claim_C7 (w : MFile) (now : Timestamp) (r : Record)
    (hw : w.failSchedule = []) :
    ∃ pre post,
      color_logger_format w now r =
        ({ contents := w.contents ++ (pre ++ (style r.level r.level.display ++ post)),
           failSchedule := [] }, none) ∧
      nocolor_logger_format w now r =
        ({ contents := w.contents ++ (pre ++ (r.level.display ++ post)),
           failSchedule := [] }, none) ∧
      pre = now.formatNoTz ++ " " ∧
      post = " " ++ (r.module_path.getD "<unnamed>" ++ (" > " ++ r.args)) ∧
      now.formatWithTz = now.formatNoTz ++ now.formatTz := by
  obtain ⟨c, sched⟩ := w
  subst hw
  refine ⟨now.formatNoTz ++ " ",
    " " ++ (r.module_path.getD "<unnamed>" ++ (" > " ++ r.args)),
    ?_, ?_, rfl, rfl, rfl⟩
  · simp [color_logger_format, color_line, MFile.write, String.append_assoc]
  · simp [nocolor_logger_format, nocolor_line, MFile.write, String.append_assoc]

/-- Claim C7 witness: at a concrete warn record both text formatters agree
on everything but the level token. -/
theorem claim_C7_witness :
    (MFile.failSchedule { contents := "", failSchedule := [] } = []) ∧
    (∃ pre post,
      color_logger_format { contents := "", failSchedule := [] }
          { year := 2019, month := 11, day := 11, hour := 21, minute := 4,
            second := 25, millisecond := 685, offsetMinutes := 60 }
          { level := .Warn, module_path := some "simple", file := none,
            line := none, args := "a warning" } =
        ({ contents := "" ++ (pre ++ (style Level.Warn Level.Warn.display ++ post)),
           failSchedule := [] }, none) ∧
      nocolor_logger_format { contents := "", failSchedule := [] }
          { year := 2019, month := 11, day := 11, hour := 21, minute := 4,
            second := 25, millisecond := 685, offsetMinutes := 60 }
          { level := .Warn, module_path := some "simple", file := none,
            line := none, args := "a warning" } =
        ({ contents := "" ++ (pre ++ (Level.Warn.display ++ post)),
           failSchedule := [] }, none) ∧
      pre = Timestamp.formatNoTz
          { year := 2019, month := 11, day := 11, hour := 21, minute := 4,
            second := 25, millisecond := 685, offsetMinutes := 60 } ++ " " ∧
      post = " " ++ ((some "simple").getD "<unnamed>" ++ (" > " ++ "a warning")) ∧
      Timestamp.formatWithTz
          { year := 2019, month := 11, day := 11, hour := 21, minute := 4,
            second := 25, millisecond := 685, offsetMinutes := 60 } =
        Timestamp.formatNoTz
          { year := 2019, month := 11, day := 11, hour := 21, minute := 4,
            second := 25, millisecond := 685, offsetMinutes := 60 } ++
        Timestamp.formatTz
          { year := 2019, month := 11, day := 11, hour := 21, minute := 4,
            second := 25, millisecond := 685, offsetMinutes := 60 }) :=
  ⟨rfl,
    claim_C7 { contents := "", failSchedule := [] }
      { year := 2019, month := 11, day := 11, hour := 21, minute := 4,
        second := 25, millisecond := 685, offsetMinutes := 60 }
      { level := .Warn, module_path := some "simple", file := none,
        line := none, args := "a warning" } rfl⟩

/-- Claim C8: each of the three format functions is pure given the record
and the timestamp: the bytes it appends do not depend on the sink, and
formatting the same record twice with the same timestamp appends
byte-identical output both times. -/
theorem claim_C8 (F : FormatFunction)
    (hF : F = go_log_json_format ∨ F = color_logger_format ∨
      F = nocolor_logger_format)
    (now : Timestamp) (r : Record) :
    ∃ L, (∀ w : MFile, w.failSchedule = [] →
        F w now r = ({ contents := w.contents ++ L, failSchedule := [] }, none)) ∧
      (∀ w : MFile, w.failSchedule = [] →
        ((F ((F w now r).1) now r).1).contents = (w.contents ++ L) ++ L) := by
  rcases hF with rfl | rfl | rfl
  · refine ⟨go_json_line now r, fun w hw => ?_, fun w hw => ?_⟩ <;>
      (obtain ⟨c, sched⟩ := w
       subst hw
       rfl)
  · refine ⟨color_line now r, fun w hw => ?_, fun w hw => ?_⟩ <;>
      (obtain ⟨c, sched⟩ := w
       subst hw
       rfl)
  · refine ⟨nocolor_line now r, fun w hw => ?_, fun w hw => ?_⟩ <;>
      (obtain ⟨c, sched⟩ := w
       subst hw
       rfl)

/-- Claim C8 witness: the JSON formatter appends the same bytes twice when
run twice on the same debug record and timestamp. -/
theorem claim_C8_witness :
    (go_log_json_format = go_log_json_format ∨
      go_log_json_format = color_logger_format ∨
      go_log_json_format = nocolor_logger_format) ∧
    (∃ L, (∀ w : MFile, w.failSchedule = [] →
        go_log_json_format w
          { year := 2019, month := 11, day := 11, hour := 21, minute := 4,
            second := 25, millisecond := 685, offsetMinutes := 0 }
          { level := .Debug, module_path := none, file := none, line := none,
            args := "debug information" } =
          ({ contents := w.contents ++ L, failSchedule := [] }, none)) ∧
      (∀ w : MFile, w.failSchedule = [] →
        ((go_log_json_format
            ((go_log_json_format w
              { year := 2019, month := 11, day := 11, hour := 21, minute := 4,
                second := 25, millisecond := 685, offsetMinutes := 0 }
              { level := .Debug, module_path := none, file := none,
                line := none, args := "debug information" }).1)
            { year := 2019, month := 11, day := 11, hour := 21, minute := 4,
              second := 25, millisecond := 685, offsetMinutes := 0 }
            { level := .Debug, module_path := none, file := none, line := none,
              args := "debug information" }).1).contents =
          (w.contents ++ L) ++ L)) :=
  ⟨Or.inl rfl,
    claim_C8 go_log_json_format (Or.inl rfl)
      { year := 2019, month := 11, day := 11, hour := 21, minute := 4,
        second := 25, millisecond := 685, offsetMinutes := 0 }
      { level := .Debug, module_path := none, file := none, line := none,
        args := "debug information" }⟩

set_option maxRecDepth 10000 in
/-- Claim C9: the JSON formatter does not escape the message: there is a
record whose message contains a literal double quote for which the
formatter reports no error, interpolates the message verbatim, and the
emitted line is not syntactically valid JSON. -/
theorem claim_C9 :
    ∃ (now : Timestamp) (r : Record),
      '\"' ∈ r.args.data ∧
      (go_log_json_format { contents := "", failSchedule := [] } now r).2 =
        none ∧
      (∃ s1 s2, rendered go_log_json_format now r = s1 ++ (r.args ++ s2)) ∧
      isValidJson (rendered go_log_json_format now r) = false := by
  refine ⟨{ year := 2019, month := 11, day := 11, hour := 21, minute := 6,
            second := 45, millisecond := 401, offsetMinutes := 60 },
    { level := .Info, module_path := some "simple",
      file := some "examples/simple.rs", line := some 38,
      args := "say \"hi\"" }, ?_, rfl, ?_, ?_⟩
  · decide
  · exact ⟨"\x7b\"level\":\"info\",\"ts\":\"2019-11-11T21:06:45.401+01:00\",\"logger\":\"simple\",\"caller\":\"examples/simple.rs:38\",\"msg\":\"",
      "\"\x7d", by decide⟩
  · decide

set_option maxRecDepth 10000 in
/-- The syntax checker is not vacuous: on the same record with a quote-free
message the emitted line is valid JSON. -/
theorem jsonChecker_accepts_wellformed :
    isValidJson (rendered go_log_json_format
      { year := 2019, month := 11, day := 11, hour := 21, minute := 6,
        second := 45, millisecond := 401, offsetMinutes := 60 }
      { level := .Info, module_path := some "simple",
        file := some "examples/simple.rs", line := some 38,
        args := "hello world" }) = true := by
  decide

/-- Claim C2: the format-selection function is deterministic in the
environment variable and terminal state: `GOLOG_LOG_FMT` equal to exactly
`"json"` selects the JSON variant regardless of terminal attachment; any
other value, or an unset variable, selects the color text variant on an
interactive stderr and the plain text variant otherwise. -/
theorem claim_C2 (env : Option String) (tty : Bool) :
    (env = some "json" → log_format env tty = go_log_json_format) ∧
    (env ≠ some "json" →
      log_format env tty =
        if tty then color_logger_format else nocolor_logger_format) := by
  constructor
  · rintro rfl
    rfl
  · intro h
    match env with
    | none => rfl
    | some s =>
      have hs : ¬ (s = "json") := by
        intro hs
        exact h (by rw [hs])
      simp [log_format, hs]

/-- Claim C2 witness: with the variable set to `"json"` and no terminal the
JSON variant is selected; with the variable unset and no terminal the plain
text variant is selected. -/
theorem claim_C2_witness :
    ((some "json" : Option String) = some "json" ∧
      log_format (some "json") false = go_log_json_format) ∧
    ((none : Option String) ≠ some "json" ∧
      log_format none false = nocolor_logger_format) := by
  refine ⟨⟨rfl, (claim_C2 (some "json") false).1 rfl⟩,
    ⟨by simp, ?_⟩⟩
  have h := (claim_C2 none false).2 (by simp)
  simpa using h

/-- Claim C4: the file-writer adapter's `write` renders the record with the
configured format function into the file and then writes exactly one
trailing newline; it returns an I/O error exactly when the formatting
write or the terminator write fails, and on success the file holds the
formatted bytes followed by one `"\n"`. -/
theorem claim_C4 (sfw : SingleFileWriter) (now : Timestamp) (r : Record) :
    ((sfw.write now r).2 ≠ none ↔
      ((sfw.format sfw.state now r).2 ≠ none ∨
        ((sfw.format sfw.state now r).1.write "\n").2 ≠ none)) ∧
    ((sfw.write now r).2 = none →
      ((sfw.write now r).1).state.contents =
        ((sfw.format sfw.state now r).1).contents ++ "\n") := by
  rcases hf : sfw.format sfw.state now r with ⟨f1, e⟩
  match e with
  | some err =>
    constructor
    · rw [show sfw.write now r = ({ sfw with state := f1 }, some err) by
        unfold SingleFileWriter.write
        rw [hf]]
      simp
    · intro h
      rw [show sfw.write now r = ({ sfw with state := f1 }, some err) by
        unfold SingleFileWriter.write
        rw [hf]] at h
      simp at h
  | none =>
    rcases hn : f1.write "\n" with ⟨f2, e2⟩
    have hw : sfw.write now r = ({ sfw with state := f2 }, e2) := by
      unfold SingleFileWriter.write
      rw [hf]
      dsimp only
      rw [hn]
    constructor
    · rw [hw]
      simp
    · intro h
      rw [hw] at h
      rw [hw]
      have := MFile.write_ok_contents f1 "\n" (by rw [hn]; exact h)
      rw [hn] at this
      exact this

/-- Claim C4 witness: on a fresh file with no injected fault, writing an
info record through the adapter succeeds and the file holds the rendered
line followed by exactly one newline. -/
theorem claim_C4_witness :
    ((SingleFileWriter.write
        { state := { contents := "", failSchedule := [] },
          format := go_log_json_format }
        { year := 2019, month := 11, day := 11, hour := 21, minute := 6,
          second := 45, millisecond := 401, offsetMinutes := 60 }
        { level := .Info, module_path := some "simple",
          file := some "examples/simple.rs", line := some 38,
          args := "hello" }).2 = none) ∧
    ((SingleFileWriter.write
        { state := { contents := "", failSchedule := [] },
          format := go_log_json_format }
        { year := 2019, month := 11, day := 11, hour := 21, minute := 6,
          second := 45, millisecond := 401, offsetMinutes := 60 }
        { level := .Info, module_path := some "simple",
          file := some "examples/simple.rs", line := some 38,
          args := "hello" }).1).state.contents =
      ((go_log_json_format { contents := "", failSchedule := [] }
        { year := 2019, month := 11, day := 11, hour := 21, minute := 6,
          second := 45, millisecond := 401, offsetMinutes := 60 }
        { level := .Info, module_path := some "simple",
          file := some "examples/simple.rs", line := some 38,
          args := "hello" }).1).contents ++ "\n" :=
  ⟨rfl,
    (claim_C4
      { state := { contents := "", failSchedule := [] },
        format := go_log_json_format }
      { year := 2019, month := 11, day := 11, hour := 21, minute := 6,
        second := 45, millisecond := 401, offsetMinutes := 60 }
      { level := .Info, module_path := some "simple",
        file := some "examples/simple.rs", line := some 38,
        args := "hello" }).2 rfl⟩

/-- Claim C5: strict initialization fails fatally when a backend is already
installed: with the global slot empty, `init` installs the selected format
and returns normally; with any backend already installed, `init` panics
with the documented message. -/
theorem claim_C5 (env : Option String) (tty : Bool) (st : LoggerState) :
    (st.installed = none →
      init env tty st = .ok { installed := some (log_format env tty) }) ∧
    (∀ f, st.installed = some f →
      init env tty st = .panicked
        "Initializing logger failed. Was another logger already initialized?") := by
  obtain ⟨inst⟩ := st
  constructor
  · rintro rfl
    rfl
  · rintro f rfl
    rfl

/-- Claim C5 witness: a first call on the empty registry installs the plain
text format; a second call on the resulting registry panics with the
documented message. -/
theorem claim_C5_witness :
    ((LoggerState.mk none).installed = none ∧
      init none false { installed := none } =
        .ok { installed := some nocolor_logger_format }) ∧
    ((LoggerState.mk (some nocolor_logger_format)).installed =
        some nocolor_logger_format ∧
      init none false { installed := some nocolor_logger_format } =
        .panicked
          "Initializing logger failed. Was another logger already initialized?") :=
  ⟨⟨rfl, (claim_C5 none false { installed := none }).1 rfl⟩,
    ⟨rfl, (claim_C5 none false { installed := some nocolor_logger_format }).2
      nocolor_logger_format rfl⟩⟩

/-- Claim C6: the best-effort initializer behaves exactly like the strict
one when no backend is installed, silently discards the attempt when one
is, and any call after a successful call returns normally with the
registry unchanged. -/
theorem claim_C6 (env : Option String) (tty : Bool) (st : LoggerState) :
    (st.installed = none → maybe_init env tty st = init env tty st) ∧
    (st.installed.isSome → maybe_init env tty st = .ok st) ∧
    (∀ env2 tty2 st1, maybe_init env tty st = .ok st1 →
      maybe_init env2 tty2 st1 = .ok st1) := by
  obtain ⟨inst⟩ := st
  refine ⟨?_, ?_, ?_⟩
  · rintro rfl
    rfl
  · intro h
    match inst with
    | some f => rfl
    | none => simp at h
  · rintro env2 tty2 st1 h
    match inst with
    | some f =>
      have : st1 = { installed := some f } := by
        simpa [maybe_init, logger_start] using h.symm
      rw [this]
      rfl
    | none =>
      have : st1 = { installed := some (log_format env tty) } := by
        simpa [maybe_init, logger_start] using h.symm
      rw [this]
      rfl

/-- Claim C6 witness: on the empty registry the best-effort call equals the
strict call; after it succeeds, a second best-effort call returns the same
registry unchanged; on an occupied registry the call is a no-op. -/
theorem claim_C6_witness :
    ((LoggerState.mk none).installed = none ∧
      maybe_init none false { installed := none } =
        init none false { installed := none }) ∧
    (maybe_init none false { installed := some nocolor_logger_format } =
        .ok { installed := some nocolor_logger_format }) ∧
    (maybe_init none true { installed := some nocolor_logger_format } =
        .ok { installed := some nocolor_logger_format }) :=
  ⟨⟨rfl, (claim_C6 none false { installed := none }).1 rfl⟩,
    (claim_C6 none false { installed := some nocolor_logger_format }).2.1 rfl,
    (claim_C6 none false { installed := some nocolor_logger_format }).2.2
      none true { installed := some nocolor_logger_format }
      ((claim_C6 none false { installed := some nocolor_logger_format }).2.1 rfl)⟩

/-- Claim C10: if the configured format function returns an I/O error, the
adapter's `write` returns that same error immediately, leaving the file in
exactly the state the format function left it — no line terminator is
appended. -/
theorem claim_C10 (sfw : SingleFileWriter) (now : Timestamp) (r : Record)
    (f1 : MFile) (e : IOErr)
    (h : sfw.format sfw.state now r = (f1, some e)) :
    sfw.write now r = ({ sfw with state := f1 }, some e) := by
  unfold SingleFileWriter.write
  rw [h]

/-- Claim C10 witness: with a fault injected on the first write, the JSON
formatter fails with that error, and the adapter returns the same error
with no newline appended to the file. -/
theorem claim_C10_witness :
    (go_log_json_format { contents := "", failSchedule := [some ⟨7⟩] }
        { year := 2019, month := 11, day := 11, hour := 21, minute := 6,
          second := 45, millisecond := 401, offsetMinutes := 60 }
        { level := .Info, module_path := some "simple",
          file := some "examples/simple.rs", line := some 38,
          args := "hello" } =
      ({ contents := "", failSchedule := [] }, some ⟨7⟩)) ∧
    (SingleFileWriter.write
        { state := { contents := "", failSchedule := [some ⟨7⟩] },
          format := go_log_json_format }
        { year := 2019, month := 11, day := 11, hour := 21, minute := 6,
          second := 45, millisecond := 401, offsetMinutes := 60 }
        { level := .Info, module_path := some "simple",
          file := some "examples/simple.rs", line := some 38,
          args := "hello" } =
      ({ state := { contents := "", failSchedule := [] },
         format := go_log_json_format }, some ⟨7⟩)) :=
  ⟨rfl,
    claim_C10
      { state := { contents := "", failSchedule := [some ⟨7⟩] },
        format := go_log_json_format }
      { year := 2019, month := 11, day := 11, hour := 21, minute := 6,
        second := 45, millisecond := 401, offsetMinutes := 60 }
      { level := .Info, module_path := some "simple",
        file := some "examples/simple.rs", line := some 38,
        args := "hello" }
      { contents := "", failSchedule := [] } ⟨7⟩ rfl⟩

end FilLogger
